import Mathlib

/-!
Shallow embedding of the AWS provisioning orchestrator in lepton/aws.go.

Provider calls are modelled by passing the provider's responses as explicit
inputs; describe-style calls that apply server-side filters (DescribeVpcs,
DescribeSubnets, DescribeInstances with a tag filter) are modelled as pure
filters over the provider's resource listing, which is the documented EC2
filter contract.  Mutating calls are recorded in an effect trace so that
frame properties (no ingress authorization, no terminate, blob deletion)
are provable.  Machine times are modelled as Int (Unix nanoseconds or
seconds); time.Parse of a creation-date string is modelled by an arbitrary
parse function String -> Option Int supplied as an input.
-/

namespace Ops

/-- Tag models both a config Tag and an ec2.Tag: a key/value pair of strings
(aws.StringValue conflates a nil *string with the empty string). -/
structure Tag where
  key : String
  value : String
deriving DecidableEq, Repr

/-- AwsImage models the fields of ec2.Image read by CreateInstance and
GetImages: the image id, the tag list (an empty list models a nil Tags
slice) and the raw CreationDate string. -/
structure AwsImage where
  imageId : String
  tags : List Tag
  creationDate : String
deriving DecidableEq, Repr

/-- Vpc models the fields of ec2.Vpc read by GetVPC. -/
structure Vpc where
  vpcId : String
  isDefault : Bool
deriving DecidableEq, Repr

/-- AwsSubnet models the fields of ec2.Subnet read by GetSubnet. -/
structure AwsSubnet where
  subnetId : String
  vpcId : String
  defaultForAz : Bool
deriving DecidableEq, Repr

/-- SecurityGroup models the fields of ec2.SecurityGroup read by
CheckValidSecurityGroup. -/
structure SecurityGroup where
  groupId : String
  vpcId : String
deriving DecidableEq, Repr

/-- IfAssociation models ec2.InstanceNetworkInterfaceAssociation: the public
ip pointer is Option String (none models a nil pointer). -/
structure IfAssociation where
  publicIp : Option String
deriving DecidableEq, Repr

/-- NetIface models ec2.InstanceNetworkInterface: a possibly-nil private ip
pointer and a possibly-nil association pointer. -/
structure NetIface where
  privateIpAddress : Option String
  association : Option IfAssociation
deriving DecidableEq, Repr

/-- Ec2Instance models the fields of ec2.Instance read by
formalizeAWSInstance. -/
structure Ec2Instance where
  instanceId : String
  tags : List Tag
  networkInterfaces : List NetIface
  stateName : String
  launchTime : String
deriving DecidableEq, Repr

/-- CloudInstance mirrors the lepton CloudInstance record built by
formalizeAWSInstance. -/
structure CloudInstance where
  id : String
  name : String
  status : String
  created : String
  publicIps : List String
  privateIps : List String
deriving DecidableEq, Repr

/-- AwsErr is the error taxonomy of the embedded functions: one constructor
per distinguishable error site of the source (the source returns distinct
fmt.Errorf messages; the constructors carry the data those messages
interpolate). -/
inductive AwsErr where
  | exitError (msg : String)
  | cantFindAmi
  | timeParseErr
  | describeVpcsFailed (msg : String)
  | noVpcsWithName (name : String)
  | noVpcs
  | noSubnetsWithName (name : String)
  | noSubnets
  | sgLookupFailed (sg : String) (msg : String)
  | vpcMismatch (sg : String) (expected : String) (actual : String)
  | sgNotFound (sg : String)
  | sgVpcNotFound (vpcId : String)
  | sgDuplicate (imgName : String)
  | sgCreateFailed (imgName : String) (msg : String)
  | sgIngressFailed (imgName : String) (msg : String)
  | instanceNotFound (name : String)
  | providerErr (msg : String)
  | dnsErr (msg : String)
  | timeout (tries : Int)
deriving DecidableEq, Repr

/-- Effect records a mutating provider call (or a polling lookup) issued by
the embedded workflows, in program order. -/
inductive Effect where
  | importSnapshot
  | deleteBlob (key : String)
  | tagResource (resource : Option String) (name : String)
  | registerImage (name : String)
  | createSecurityGroup (name : String) (vpcId : String)
  | authorizeIngress (perms : List (String × Int))
  | runInstances (ami : String) (flavor : String) (subnetId : String)
      (sg : String) (tags : List Tag)
  | lookupByName (name : String)
  | createDNSRecord (ip : String)
  | terminateInstance (id : String)
deriving DecidableEq, Repr

/-- formalizeAWSInstance embeds the source function of the same name: the
name defaults to "unknown" and each later tag with key "Name" overwrites
it; private ips are appended for every interface; public ips only for
interfaces whose association is non-nil with a non-nil public ip. -/
def formalizeAWSInstance (inst : Ec2Instance) : CloudInstance :=
  { id := inst.instanceId
    name := inst.tags.foldl
      (fun acc t => if t.key == "Name" then t.value else acc) "unknown"
    status := inst.stateName
    created := inst.launchTime
    publicIps := inst.networkInterfaces.filterMap
      (fun ni => ni.association.bind (fun a => a.publicIp))
    privateIps := inst.networkInterfaces.map
      (fun ni => ni.privateIpAddress.getD "") }

/-- getInstanceByID embeds GetInstanceByID composed with getAWSInstances:
the provider listing is filtered by the tag:Name filter (an instance
matches when some tag has key "Name" and the given value), each match is
formalized, and an empty result is ErrInstanceNotFound. -/
def getInstanceByID (zoneInstances : List Ec2Instance) (id : String) :
    Except AwsErr CloudInstance :=
  let found := zoneInstances.filter
    (fun i => i.tags.any (fun t => t.key == "Name" && t.value == id))
  match found.map formalizeAWSInstance with
  | [] => .error (.instanceNotFound id)
  | c :: _ => .ok c

/-- lastDefaultVpc embeds the GetVPC loop that repeatedly overwrites the
chosen vpc with every default-flagged vpc of the result list (so the last
default wins), starting from a nil pointer. -/
def lastDefaultVpc (vs : List Vpc) : Option Vpc :=
  vs.foldl (fun acc v => if v.isDefault then some v else acc) none

/-- getVPC embeds GetVPC: with a non-empty hint the describe call filters by
vpc-id and the first result is returned; with an empty hint all vpcs are
listed and the last default-flagged one (or, failing that, the first) is
returned; an empty result is a NotFound-style error whose message depends
on whether a hint was given; a failing describe call propagates. -/
def getVPC (describeErr : Option String) (allVpcs : List Vpc)
    (vpcName : String) : Except AwsErr Vpc :=
  match describeErr with
  | some e => .error (.describeVpcsFailed e)
  | none =>
    let result :=
      if vpcName ≠ "" then allVpcs.filter (fun v => v.vpcId == vpcName)
      else allVpcs
    match result with
    | [] =>
      if vpcName ≠ "" then .error (.noVpcsWithName vpcName)
      else .error .noVpcs
    | v0 :: rest =>
      if vpcName ≠ "" then .ok v0
      else
        match lastDefaultVpc (v0 :: rest) with
        | some v => .ok v
        | none => .ok v0

/-- getSubnet embeds GetSubnet: the describe call always filters by vpc-id
and additionally by subnet-id when the hint is non-empty; an empty result
is a NotFound-style error naming the hint when one was given; when the
hint is non-empty the first default-for-az subnet of the result is
preferred; otherwise (and when no result is default-for-az) the first
result is returned. -/
def getSubnet (describeErr : Option String) (allSubnets : List AwsSubnet)
    (subnetName : String) (vpcID : String) : Except AwsErr AwsSubnet :=
  match describeErr with
  | some e => .error (.providerErr e)
  | none =>
    let result := allSubnets.filter
      (fun s => s.vpcId == vpcID &&
        (subnetName == "" || s.subnetId == subnetName))
    match result with
    | [] =>
      if subnetName ≠ "" then .error (.noSubnetsWithName subnetName)
      else .error .noSubnets
    | s0 :: rest =>
      if subnetName ≠ "" then
        match (s0 :: rest).find? (fun s => s.defaultForAz) with
        | some s => .ok s
        | none => .ok s0
      else .ok s0

/-- checkValidSecurityGroup embeds CheckValidSecurityGroup: it receives the
response of DescribeSecurityGroups for the declared group id; a failing
describe propagates; a single result whose vpc differs from the declared
one is the vpc-mismatch (Conflict) error; an empty result is the
not-found error; otherwise nil. -/
def checkValidSecurityGroup (resp : Except String (List SecurityGroup))
    (sg : String) (vpc : String) : Except AwsErr Unit :=
  match resp with
  | .error e => .error (.sgLookupFailed sg e)
  | .ok result =>
    match result with
    | [g] =>
      if g.vpcId ≠ vpc then .error (.vpcMismatch sg vpc g.vpcId)
      else .ok ()
    | [] => .error (.sgNotFound sg)
    | _ => .ok ()

/-- buildFirewallRule embeds buildFirewallRule, reduced to the data the
claims inspect: the protocol and the port (from-port = to-port = port, the
single ip range 0.0.0.0/0 is implicit in every rule). -/
def buildFirewallRule (protocol : String) (port : Int) : String × Int :=
  (protocol, port)

/-- SGCreateErr models the awserr code switch of CreateSG: the two
specifically handled codes and the default case. -/
inductive SGCreateErr where
  | invalidVpc
  | duplicate
  | other (msg : String)
deriving DecidableEq, Repr

/-- createSG embeds CreateSG: the group name is the image name plus the
current Unix-nano time; a creation failure is classified by error code;
on success one tcp rule per declared tcp port and one udp rule per
declared udp port are built, and the ingress-authorization call is issued
only when that rule list is non-empty; the new group id is returned. -/
def createSG (createResp : Except SGCreateErr String)
    (authorizeResp : Except String Unit) (tcpPorts : List Int)
    (udpPorts : List Int) (imgName : String) (vpcID : String)
    (nowNanos : Int) : Except AwsErr String × List Effect :=
  let sgName := imgName ++ toString nowNanos
  match createResp with
  | .error .invalidVpc =>
    (.error (.sgVpcNotFound vpcID), [.createSecurityGroup sgName vpcID])
  | .error .duplicate =>
    (.error (.sgDuplicate imgName), [.createSecurityGroup sgName vpcID])
  | .error (.other m) =>
    (.error (.sgCreateFailed imgName m), [.createSecurityGroup sgName vpcID])
  | .ok gid =>
    let ec2Permissions :=
      tcpPorts.map (buildFirewallRule "tcp") ++
        udpPorts.map (buildFirewallRule "udp")
    if ec2Permissions.length ≠ 0 then
      match authorizeResp with
      | .error m =>
        (.error (.sgIngressFailed imgName m),
          [.createSecurityGroup sgName vpcID,
            .authorizeIngress ec2Permissions])
      | .ok _ =>
        (.ok gid,
          [.createSecurityGroup sgName vpcID,
            .authorizeIngress ec2Permissions])
    else (.ok gid, [.createSecurityGroup sgName vpcID])

/-- parseTagsLoop embeds the loop of parseToAWSTags: each config tag is
copied onto the accumulated list; a tag with key "Name" sets the
name-specified flag and overwrites the name. -/
def parseTagsLoop : List Tag → List Tag → Bool → String →
    List Tag × Bool × String
  | [], tags, nameSpecified, name => (tags, nameSpecified, name)
  | t :: rest, tags, nameSpecified, name =>
    parseTagsLoop rest (tags ++ [⟨t.key, t.value⟩])
      (if t.key == "Name" then true else nameSpecified)
      (if t.key == "Name" then t.value else name)

/-- parseToAWSTags embeds parseToAWSTags: when no config tag has key "Name"
a Name tag carrying the default name is appended; the returned name is the
default unless a "Name" tag overwrote it. -/
def parseToAWSTags (configTags : List Tag) (defaultName : String) :
    List Tag × String :=
  match parseTagsLoop configTags [] false defaultName with
  | (tags, nameSpecified, name) =>
    if nameSpecified then (tags, name)
    else (tags ++ [⟨"Name", name⟩], name)

/-- firstTagValue reads the value of an image's first tag, or "" when the
tag list is nil, exactly as the CreateInstance selection loop does. -/
def firstTagValue (img : AwsImage) : String :=
  match img.tags with
  | [] => ""
  | t :: _ => t.value

/-- selectAmiLoop embeds the image-selection loop of CreateInstance: every
image whose first tag value is non-empty and equals the requested name
overwrites the chosen ami id; its creation date is parsed (a parse failure
aborts) and the running maximum of parsed dates is tracked but never used
for the selection. -/
def selectAmiLoop (parseDate : String → Option Int) (imgName : String) :
    List AwsImage → String → Int → Except AwsErr String
  | [], ami, _last => .ok ami
  | img :: rest, ami, last =>
    let n := firstTagValue img
    if n ≠ "" ∧ n = imgName then
      match parseDate img.creationDate with
      | none => .error .timeParseErr
      | some t =>
        selectAmiLoop parseDate imgName rest img.imageId
          (if last < t then t else last)
    else selectAmiLoop parseDate imgName rest ami last

/-- selectAmi embeds the ami selection of CreateInstance including the
final emptiness check producing the cant-find-ami error. -/
def selectAmi (parseDate : String → Option Int) (images : List AwsImage)
    (imgName : String) : Except AwsErr String :=
  match selectAmiLoop parseDate imgName images "" 0 with
  | .error e => .error e
  | .ok ami => if ami = "" then .error .cantFindAmi else .ok ami

/-- RunConfig carries the fields of config.RunConfig read by
CreateInstance and its helpers. -/
structure RunConfig where
  securityGroup : String
  vpc : String
  subnet : String
  domainName : String
  tags : List Tag
  ports : List Int
  udpPorts : List Int
deriving Repr

/-- CloudCfg carries the fields of config.CloudConfig read by the
workflows. -/
structure CloudCfg where
  imageName : String
  bucketName : String
  zone : String
  flavor : String
deriving Repr

/-- Config bundles the configuration read by the embedded workflows. -/
structure Config where
  cloud : CloudCfg
  run : RunConfig
deriving Repr

/-- InstanceInputs carries every provider response consumed by one run of
CreateInstance: polls gives the instance listing the provider would return
to the i-th polling lookup. -/
structure InstanceInputs where
  imagesResp : Except String (List AwsImage)
  parseDate : String → Option Int
  describeVpcsErr : Option String
  vpcs : List Vpc
  sgDescribe : Except String (List SecurityGroup)
  createSGResp : Except SGCreateErr String
  authorizeResp : Except String Unit
  describeSubnetsErr : Option String
  subnets : List AwsSubnet
  runInstancesResp : Except String String
  polls : Nat → List Ec2Instance
  dnsResp : Except String Unit
  nowUnix : Int
  nowNanos : Int

/-- resolveSG embeds the security-group branch of CreateInstance: with both
an explicit group id and an explicit vpc id declared, the group is
validated and its declared id reused with no creation call; otherwise a
fresh group is created in the resolved vpc. -/
def resolveSG (cfg : Config) (inp : InstanceInputs) (vpcID : String) :
    Except AwsErr String × List Effect :=
  if cfg.run.securityGroup ≠ "" ∧ cfg.run.vpc ≠ "" then
    match checkValidSecurityGroup inp.sgDescribe cfg.run.securityGroup
        cfg.run.vpc with
    | .error e => (.error e, [])
    | .ok _ => (.ok cfg.run.securityGroup, [])
  else
    createSG inp.createSGResp inp.authorizeResp cfg.run.ports
      cfg.run.udpPorts cfg.cloud.imageName vpcID inp.nowNanos

/-- pollLoop embeds the DNS polling loop of CreateInstance: the budget is
decremented only when the lookup by the derived tag name fails; a
successful lookup returns immediately, binding DNS to the first public
address when the list is non-empty and succeeding without binding when it
is empty; an exhausted budget is the timeout error carrying the final
counter value 0. -/
def pollLoop (polls : Nat → List Ec2Instance) (dnsResp : Except String Unit)
    (nm : String) : Nat → Nat → Except AwsErr Unit × List Effect
  | 0, _ => (.error (.timeout 0), [])
  | n + 1, i =>
    match getInstanceByID (polls i) nm with
    | .error _ =>
      let r := pollLoop polls dnsResp nm n (i + 1)
      (r.1, Effect.lookupByName nm :: r.2)
    | .ok inst =>
      match inst.publicIps with
      | [] => (.ok (), [Effect.lookupByName nm])
      | ip :: _ =>
        match dnsResp with
        | .error e =>
          (.error (.dnsErr e),
            [Effect.lookupByName nm, Effect.createDNSRecord ip])
        | .ok _ =>
          (.ok (), [Effect.lookupByName nm, Effect.createDNSRecord ip])

/-- createInstance embeds CreateInstance: list images and select the ami,
resolve the vpc, resolve or create the security group, resolve the subnet,
default the flavor to t2.micro, derive the tag set and instance name from
the config tags with the image name plus the Unix-seconds time as default,
launch the instance, and when a domain name is declared run the bounded
polling loop; a failing image listing is the process exit of
exitWithError("Invalid zone"). -/
def createInstance (cfg : Config) (inp : InstanceInputs) :
    Except AwsErr Unit × List Effect :=
  match inp.imagesResp with
  | .error _ => (.error (.exitError "Invalid zone"), [])
  | .ok images =>
    match selectAmi inp.parseDate images cfg.cloud.imageName with
    | .error e => (.error e, [])
    | .ok ami =>
      match getVPC inp.describeVpcsErr inp.vpcs cfg.run.vpc with
      | .error e => (.error e, [])
      | .ok vpc =>
        match resolveSG cfg inp vpc.vpcId with
        | (.error e, tr) => (.error e, tr)
        | (.ok sg, tr) =>
          match getSubnet inp.describeSubnetsErr inp.subnets cfg.run.subnet
              vpc.vpcId with
          | .error e => (.error e, tr)
          | .ok sub =>
            let flavor :=
              if cfg.cloud.flavor = "" then "t2.micro" else cfg.cloud.flavor
            match parseToAWSTags cfg.run.tags
                (cfg.cloud.imageName ++ "-" ++ toString inp.nowUnix) with
            | (tags, tagInstanceName) =>
              let tr2 :=
                tr ++ [Effect.runInstances ami flavor sub.subnetId sg tags]
              match inp.runInstancesResp with
              | .error e => (.error (.providerErr e), tr2)
              | .ok _ =>
                if cfg.run.domainName ≠ "" then
                  match pollLoop inp.polls inp.dnsResp tagInstanceName
                      60 0 with
                  | (r, ptr) => (r, tr2 ++ ptr)
                else (.ok (), tr2)

/-- WaiterOutcome is the outcome of the aws request.Waiter: a success
acceptor matched, a failure acceptor matched, or the attempt budget was
exhausted (the waiter then returns a ResourceNotReady error). -/
inductive WaiterOutcome where
  | success
  | failure
  | timedOut
deriving DecidableEq, Repr

/-- runWaiter embeds the aws request.Waiter configured by
waitSnapshotToBeReady: at each attempt the import task status is fetched;
"completed" matches the success acceptor, "deleted" and "deleting" match
failure acceptors, anything else retries until the 60-attempt budget is
exhausted. -/
def runWaiter (status : Nat → String) : Nat → Nat → WaiterOutcome
  | 0, _ => .timedOut
  | n + 1, i =>
    if status i == "completed" then .success
    else if status i == "deleted" || status i == "deleting" then .failure
    else runWaiter status n (i + 1)

/-- ImageInputs carries every provider response consumed by one run of
CreateImage: pollStatus gives the task status the waiter observes at its
i-th attempt, and finalDescribeResp the snapshot id (a none models a nil
SnapshotId pointer) reported by the describe call issued after the
waiter. -/
structure ImageInputs where
  importSnapshotResp : Except String String
  initialDescribeOk : Except String Unit
  pollStatus : Nat → String
  finalDescribeResp : Except String (Option String)
  deleteBlobResp : Except String Unit
  tagSnapshotResp : Except String Unit
  registerImageResp : Except String String
  tagImageResp : Except String Unit
  nowNanos : Int

/-- waitSnapshotToBeReady embeds waitSnapshotToBeReady: an initial describe
whose failure propagates, then the 60-attempt waiter whose outcome the
source discards, then a final describe whose first task's snapshot id is
returned. -/
def waitSnapshotToBeReady (inp : ImageInputs) :
    Except String (Option String) :=
  match inp.initialDescribeOk with
  | .error e => .error e
  | .ok _ =>
    let _discarded := runWaiter inp.pollStatus 60 0
    inp.finalDescribeResp

/-- createImage embeds CreateImage: submit the import, wait for the
snapshot, delete the staging blob from the bucket, tag the snapshot with
the key, register the ami under the key plus the Unix-nano time, and tag
the ami with the key; the error of the final tagging call is assigned but
the function returns nil regardless, as in the source. -/
def createImage (inp : ImageInputs) (key : String) :
    Except String Unit × List Effect :=
  match inp.importSnapshotResp with
  | .error e => (.error e, [.importSnapshot])
  | .ok _taskId =>
    match waitSnapshotToBeReady inp with
    | .error e => (.error e, [.importSnapshot])
    | .ok snapshotID =>
      match inp.deleteBlobResp with
      | .error e => (.error e, [.importSnapshot, .deleteBlob key])
      | .ok _ =>
        match inp.tagSnapshotResp with
        | .error e =>
          (.error e,
            [.importSnapshot, .deleteBlob key, .tagResource snapshotID key])
        | .ok _ =>
          let amiName := key ++ toString inp.nowNanos
          match inp.registerImageResp with
          | .error e =>
            (.error e,
              [.importSnapshot, .deleteBlob key,
                .tagResource snapshotID key, .registerImage amiName])
          | .ok imageId =>
            let _err := inp.tagImageResp
            (.ok (),
              [.importSnapshot, .deleteBlob key,
                .tagResource snapshotID key, .registerImage amiName,
                .tagResource (some imageId) key])

/-- lastNameValue gives the value of the last tag with key "Name", the
reference reading of the last-wins overwrite loops of the source. -/
def lastNameValue (tags : List Tag) : Option String :=
  ((tags.filter (fun t => t.key == "Name")).getLast?).map (fun t => t.value)

/-- instW is a concrete instance description with two Name tags and two
interfaces, only one of which carries a public-address association. -/
def instW : Ec2Instance :=
  { instanceId := "i-9"
    tags := [⟨"Name", "first"⟩, ⟨"env", "prod"⟩, ⟨"Name", "second"⟩]
    networkInterfaces :=
      [⟨some "10.0.0.1", none⟩, ⟨some "10.0.0.2", some ⟨some "3.3.3.3"⟩⟩]
    stateName := "running"
    launchTime := "t0" }

/-- subnetsC5 lists two subnets of vpc-1 in provider order: the first not
default-for-az, the second default-for-az. -/
def subnetsC5 : List AwsSubnet :=
  [⟨"subnet-a", "vpc-1", false⟩, ⟨"subnet-b", "vpc-1", true⟩]

/-- vpcsC6 lists three vpcs with exactly one flagged default. -/
def vpcsC6 : List Vpc := [⟨"vpc-a", false⟩, ⟨"vpc-b", true⟩, ⟨"vpc-c", false⟩]

/-- noIpInst is a running instance named web with no network interfaces, so
its formalization has an empty public-address list. -/
def noIpInst : Ec2Instance :=
  { instanceId := "i-1", tags := [⟨"Name", "web"⟩], networkInterfaces := []
    stateName := "running", launchTime := "t0" }

/-- cfgC2 declares a domain name, a Name tag and no explicit network or
security hints. -/
def cfgC2 : Config :=
  { cloud :=
      { imageName := "img", bucketName := "bkt", zone := "us-west-1",
        flavor := "" }
    run :=
      { securityGroup := "", vpc := "", subnet := "",
        domainName := "example.com", tags := [⟨"Name", "web"⟩],
        ports := [], udpPorts := [] } }

/-- inpC2 gives a provider state where every call succeeds and every poll
finds the instance noIpInst, which has no public address. -/
def inpC2 : InstanceInputs :=
  { imagesResp := .ok [⟨"ami-1", [⟨"k", "img"⟩], "2020"⟩]
    parseDate := fun _ => some 5
    describeVpcsErr := none
    vpcs := [⟨"vpc-1", true⟩]
    sgDescribe := .ok []
    createSGResp := .ok "sg-1"
    authorizeResp := .ok ()
    describeSubnetsErr := none
    subnets := [⟨"subnet-a", "vpc-1", false⟩]
    runInstancesResp := .ok "i-1"
    polls := fun _ => [noIpInst]
    dnsResp := .ok ()
    nowUnix := 3
    nowNanos := 9 }

/-- inpC2t is inpC2 with a provider that never lists any instance, so every
polling lookup fails. -/
def inpC2t : InstanceInputs := { inpC2 with polls := fun _ => [] }

/-- cfgC4 declares both an explicit security-group id and an explicit vpc
id. -/
def cfgC4 : Config :=
  { cloud :=
      { imageName := "img", bucketName := "bkt", zone := "z",
        flavor := "" }
    run :=
      { securityGroup := "sg-9", vpc := "vpc-1", subnet := "",
        domainName := "", tags := [], ports := [], udpPorts := [] } }

/-- inpC4 answers the security-group lookup with a group whose parent vpc
differs from the declared one. -/
def inpC4 : InstanceInputs :=
  { inpC2 with sgDescribe := .ok [⟨"sg-9", "vpc-2"⟩] }

/-- cfgC9 requests image img with no tags, no domain and no hints. -/
def cfgC9 : Config :=
  { cloud :=
      { imageName := "img", bucketName := "bkt", zone := "z",
        flavor := "t2.micro" }
    run :=
      { securityGroup := "", vpc := "", subnet := "",
        domainName := "", tags := [], ports := [], udpPorts := [] } }

/-- imagesC9 lists two images whose first tag value both equal img, in
provider order. -/
def imagesC9 : List AwsImage :=
  [⟨"ami-old", [⟨"k", "img"⟩], "d1"⟩, ⟨"ami-new", [⟨"k", "img"⟩], "d2"⟩]

/-- inpC9 is inpC2 with the provider listing imagesC9. -/
def inpC9 : InstanceInputs :=
  { inpC2 with imagesResp := .ok imagesC9 }

/-- inpC1 is an import run whose task reports the non-terminal status
pending on every one of the waiter's polls, while every other provider
call succeeds; the final describe reports no snapshot id, the task being
incomplete. -/
def inpC1 : ImageInputs :=
  { importSnapshotResp := .ok "import-task-1"
    initialDescribeOk := .ok ()
    pollStatus := fun _ => "pending"
    finalDescribeResp := .ok none
    deleteBlobResp := .ok ()
    tagSnapshotResp := .ok ()
    registerImageResp := .ok "ami-1"
    tagImageResp := .ok ()
    nowNanos := 7 }

/-- inpC3 is an import run where every step succeeds except the final
image-tagging call, which fails. -/
def inpC3 : ImageInputs :=
  { importSnapshotResp := .ok "import-task-1"
    initialDescribeOk := .ok ()
    pollStatus := fun _ => "completed"
    finalDescribeResp := .ok (some "snap-1")
    deleteBlobResp := .ok ()
    tagSnapshotResp := .ok ()
    registerImageResp := .ok "ami-1"
    tagImageResp := .error "tag failure"
    nowNanos := 7 }

theorem getLast?_cons_getD {α β : Type _} (f : α → β) (a : α) (l : List α)
    (d : β) :
    (((a :: l).getLast?).map f).getD d = ((l.getLast?).map f).getD (f a) := by
  cases l with
  | nil => rfl
  | cons b t =>
    rw [List.getLast?_cons_cons]
    cases h : (b :: t).getLast? with
    | none => simp [List.getLast?_eq_none_iff] at h
    | some y => simp

theorem foldl_if_getLast {α β : Type _} (p : α → Bool) (f : α → β) :
    ∀ (l : List α) (acc : β),
      l.foldl (fun a x => if p x then f x else a) acc =
        (((l.filter p).getLast?).map f).getD acc := by
  intro l
  induction l with
  | nil => intro acc; rfl
  | cons x xs ih =>
    intro acc
    by_cases h : p x = true
    · rw [List.foldl_cons, if_pos h, ih (f x),
        List.filter_cons_of_pos h, getLast?_cons_getD]
    · rw [List.foldl_cons, if_neg h, ih acc,
        List.filter_cons_of_neg h]

theorem parseTagsLoop_spec :
    ∀ (l tags : List Tag) (ns : Bool) (name : String),
      parseTagsLoop l tags ns name =
        (tags ++ l,
          (ns || l.any (fun t => t.key == "Name")),
          ((l.filter (fun t => t.key == "Name")).getLast?.map
              (fun t => t.value)).getD name) := by
  intro l
  induction l with
  | nil => intro tags ns name; simp [parseTagsLoop]
  | cons t rest ih =>
    intro tags ns name
    by_cases h : (t.key == "Name") = true
    · rw [parseTagsLoop, if_pos h, if_pos h, ih]
      simp [h, List.filter_cons_of_pos h, getLast?_cons_getD]
    · rw [parseTagsLoop, if_neg h, if_neg h, ih]
      simp [h, List.filter_cons_of_neg h]

theorem filter_cons_pos {α : Type _} (p : α → Bool) (a : α) (l : List α)
    (h : p a = true) : (a :: l).filter p = a :: l.filter p := by
  simp [List.filter_cons, h]

theorem filter_cons_neg {α : Type _} (p : α → Bool) (a : α) (l : List α)
    (h : ¬ p a = true) : (a :: l).filter p = l.filter p := by
  simp [List.filter_cons, h]

theorem selectAmiLoop_last (parseDate : String → Option Int)
    (imgName : String) (hn : imgName ≠ "") :
    ∀ (l : List AwsImage) (ami : String) (last : Int),
      (∀ img ∈ l.filter (fun i => firstTagValue i == imgName),
        (parseDate img.creationDate).isSome) →
      selectAmiLoop parseDate imgName l ami last =
        .ok ((((l.filter (fun i => firstTagValue i == imgName)).getLast?).map
            (fun i => i.imageId)).getD ami) := by
  intro l
  induction l with
  | nil => intro ami last _; rfl
  | cons img rest ih =>
    intro ami last hparse
    by_cases h : (firstTagValue img == imgName) = true
    · have heq : firstTagValue img = imgName := eq_of_beq h
      have hcond : firstTagValue img ≠ "" ∧ firstTagValue img = imgName :=
        ⟨heq ▸ hn, heq⟩
      have hmem : img ∈ (img :: rest).filter
          (fun i => firstTagValue i == imgName) := by
        rw [filter_cons_pos (fun i => firstTagValue i == imgName) img rest h]
        exact List.mem_cons_self _ _
      obtain ⟨t, ht⟩ := Option.isSome_iff_exists.mp (hparse img hmem)
      rw [selectAmiLoop, if_pos hcond, ht,
        filter_cons_pos (fun i => firstTagValue i == imgName) img rest h,
        getLast?_cons_getD]
      exact ih img.imageId (if last < t then t else last) (fun i hi =>
        hparse i (by
          rw [filter_cons_pos (fun i => firstTagValue i == imgName)
            img rest h]
          exact List.mem_cons_of_mem _ hi))
    · have hcond :
          ¬ (firstTagValue img ≠ "" ∧ firstTagValue img = imgName) := by
        intro hc
        exact h (beq_iff_eq.mpr hc.2)
      rw [selectAmiLoop, if_neg hcond,
        filter_cons_neg (fun i => firstTagValue i == imgName) img rest h]
      exact ih ami last (fun i hi => hparse i (by
        rw [filter_cons_neg (fun i => firstTagValue i == imgName)
          img rest h]
        exact hi))

theorem pollLoop_timeout (polls : Nat → List Ec2Instance)
    (dns : Except String Unit) (nm : String)
    (hfail : ∀ i, ∃ e, getInstanceByID (polls i) nm = .error e) :
    ∀ (n i : Nat), (pollLoop polls dns nm n i).1 = .error (.timeout 0) := by
  intro n
  induction n with
  | zero => intro i; rfl
  | succ n ih =>
    intro i
    obtain ⟨e, he⟩ := hfail i
    rw [pollLoop, he]
    exact ih (i + 1)

theorem pollLoop_effects (polls : Nat → List Ec2Instance)
    (dns : Except String Unit) (nm : String) :
    ∀ (n i : Nat), ∀ e ∈ (pollLoop polls dns nm n i).2,
      e = Effect.lookupByName nm ∨ ∃ ip, e = Effect.createDNSRecord ip := by
  intro n
  induction n with
  | zero => intro i e he; simp [pollLoop] at he
  | succ n ih =>
    intro i e he
    rw [pollLoop] at he
    split at he
    · rcases List.mem_cons.mp he with h | h
      · exact Or.inl h
      · exact ih (i + 1) e h
    · split at he
      · exact Or.inl (List.mem_singleton.mp he)
      · split at he
        · rcases List.mem_cons.mp he with h | h
          · exact Or.inl h
          · exact Or.inr ⟨_, List.mem_singleton.mp h⟩
        · rcases List.mem_cons.mp he with h | h
          · exact Or.inl h
          · exact Or.inr ⟨_, List.mem_singleton.mp h⟩

theorem createSG_effects (createResp : Except SGCreateErr String)
    (authorizeResp : Except String Unit) (tcpPorts udpPorts : List Int)
    (imgName vpcID : String) (nowNanos : Int) :
    ∀ e ∈ (createSG createResp authorizeResp tcpPorts udpPorts imgName
        vpcID nowNanos).2,
      (∃ s v, e = Effect.createSecurityGroup s v) ∨
        ∃ p, e = Effect.authorizeIngress p := by
  intro e he
  unfold createSG at he
  rcases createResp with (_ | _ | m) | gid <;> simp at he
  · exact Or.inl ⟨_, _, he⟩
  · exact Or.inl ⟨_, _, he⟩
  · exact Or.inl ⟨_, _, he⟩
  · split at he
    · cases authorizeResp <;> simp at he <;>
        rcases he with h | h
      · exact Or.inl ⟨_, _, h⟩
      · exact Or.inr ⟨_, h⟩
      · exact Or.inl ⟨_, _, h⟩
      · exact Or.inr ⟨_, h⟩
    · simp at he
      exact Or.inl ⟨_, _, he⟩

theorem resolveSG_effects (cfg : Config) (inp : InstanceInputs)
    (vpcID : String) :
    ∀ e ∈ (resolveSG cfg inp vpcID).2,
      (∃ s v, e = Effect.createSecurityGroup s v) ∨
        ∃ p, e = Effect.authorizeIngress p := by
  intro e he
  unfold resolveSG at he
  split at he
  · split at he <;> simp at he
  · exact createSG_effects _ _ _ _ _ _ _ e he

theorem createInstance_trace_shape (cfg : Config) (inp : InstanceInputs) :
    ∀ e ∈ (createInstance cfg inp).2,
      (∃ s v, e = Effect.createSecurityGroup s v) ∨
      (∃ p, e = Effect.authorizeIngress p) ∨
      (∃ f s g t images ami, inp.imagesResp = Except.ok images ∧
        selectAmi inp.parseDate images cfg.cloud.imageName = Except.ok ami ∧
        e = Effect.runInstances ami f s g t) ∨
      e = Effect.lookupByName (parseToAWSTags cfg.run.tags
        (cfg.cloud.imageName ++ "-" ++ toString inp.nowUnix)).2 ∨
      (∃ ip, e = Effect.createDNSRecord ip) := by
  intro e he
  unfold createInstance at he
  cases him : inp.imagesResp with
  | error m => simp only [him] at he; simp at he
  | ok images =>
    simp only [him] at he
    cases hsel : selectAmi inp.parseDate images cfg.cloud.imageName with
    | error err => simp only [hsel] at he; simp at he
    | ok ami =>
      simp only [hsel] at he
      cases hvpc : getVPC inp.describeVpcsErr inp.vpcs cfg.run.vpc with
      | error err => simp only [hvpc] at he; simp at he
      | ok vpc =>
        simp only [hvpc] at he
        rcases hsg : resolveSG cfg inp vpc.vpcId with ⟨e0 | sg, tr⟩
        · simp only [hsg] at he
          rcases resolveSG_effects cfg inp vpc.vpcId e
            (by rw [hsg]; exact he) with h | h
          · exact Or.inl h
          · exact Or.inr (Or.inl h)
        · simp only [hsg] at he
          cases hsub : getSubnet inp.describeSubnetsErr inp.subnets
              cfg.run.subnet vpc.vpcId with
          | error err =>
            simp only [hsub] at he
            rcases resolveSG_effects cfg inp vpc.vpcId e
              (by rw [hsg]; exact he) with h | h
            · exact Or.inl h
            · exact Or.inr (Or.inl h)
          | ok sub =>
            simp only [hsub] at he
            rcases hpt : parseToAWSTags cfg.run.tags
                (cfg.cloud.imageName ++ "-" ++ toString inp.nowUnix)
              with ⟨tags0, nm⟩
            simp only [hpt] at he
            cases hrun : inp.runInstancesResp with
            | error err =>
              simp only [hrun] at he
              rcases List.mem_append.mp he with h | h
              · rcases resolveSG_effects cfg inp vpc.vpcId e
                  (by rw [hsg]; exact h) with h2 | h2
                · exact Or.inl h2
                · exact Or.inr (Or.inl h2)
              · exact Or.inr (Or.inr (Or.inl
                  ⟨_, _, _, _, images, ami, rfl, hsel,
                    List.mem_singleton.mp h⟩))
            | ok instId =>
              simp only [hrun] at he
              by_cases hdom : cfg.run.domainName = ""
              · rw [if_neg (by simp [hdom])] at he
                rcases List.mem_append.mp he with h | h
                · rcases resolveSG_effects cfg inp vpc.vpcId e
                    (by rw [hsg]; exact h) with h2 | h2
                  · exact Or.inl h2
                  · exact Or.inr (Or.inl h2)
                · exact Or.inr (Or.inr (Or.inl
                    ⟨_, _, _, _, images, ami, rfl, hsel,
                      List.mem_singleton.mp h⟩))
              · rw [if_pos hdom] at he
                rcases hpl : pollLoop inp.polls inp.dnsResp nm 60 0
                  with ⟨r, ptr⟩
                simp only [hpl] at he
                rcases List.mem_append.mp he with h | h
                · rcases List.mem_append.mp h with h1 | h1
                  · rcases resolveSG_effects cfg inp vpc.vpcId e
                      (by rw [hsg]; exact h1) with h2 | h2
                    · exact Or.inl h2
                    · exact Or.inr (Or.inl h2)
                  · exact Or.inr (Or.inr (Or.inl
                      ⟨_, _, _, _, images, ami, rfl, hsel,
                        List.mem_singleton.mp h1⟩))
                · rcases pollLoop_effects inp.polls inp.dnsResp nm 60 0 e
                    (by rw [hpl]; exact h) with h2 | h2
                  · exact Or.inr (Or.inr (Or.inr (Or.inl h2)))
                  · exact Or.inr (Or.inr (Or.inr (Or.inr h2)))

/-- C10: formalizeAWSInstance names the instance "unknown" when no tag has
key Name and otherwise takes the value of the last Name tag; it collects
one private address per interface, and its public addresses are exactly
the public ips of interfaces whose association carries one. -/
theorem formalizeAWSInstance_spec (inst : Ec2Instance) :
    ((inst.tags.filter (fun t => t.key == "Name")) = [] →
      (formalizeAWSInstance inst).name = "unknown") ∧
    (∀ t, (inst.tags.filter (fun t => t.key == "Name")).getLast? = some t →
      (formalizeAWSInstance inst).name = t.value) ∧
    (formalizeAWSInstance inst).privateIps.length =
      inst.networkInterfaces.length ∧
    (∀ ip, ip ∈ (formalizeAWSInstance inst).publicIps ↔
      ∃ ni ∈ inst.networkInterfaces, ∃ a,
        ni.association = some a ∧ a.publicIp = some ip) := by
  refine ⟨?_, ?_, ?_, ?_⟩
  · intro h
    show inst.tags.foldl _ "unknown" = "unknown"
    rw [foldl_if_getLast (fun t => t.key == "Name") (fun t => t.value)
      inst.tags "unknown", h]
    rfl
  · intro t ht
    show inst.tags.foldl _ "unknown" = t.value
    rw [foldl_if_getLast (fun t => t.key == "Name") (fun t => t.value)
      inst.tags "unknown", ht]
    rfl
  · simp [formalizeAWSInstance]
  · intro ip
    simp [formalizeAWSInstance, List.mem_filterMap, Option.bind_eq_some]

/-- C10 witness: on the concrete instance instW the last Name tag wins and
the single associated interface contributes the only public ip. -/
theorem formalizeAWSInstance_spec_witness :
    (formalizeAWSInstance instW).name = "second" ∧
    ("3.3.3.3" ∈ (formalizeAWSInstance instW).publicIps ↔
      ∃ ni ∈ instW.networkInterfaces, ∃ a,
        ni.association = some a ∧ a.publicIp = some "3.3.3.3") :=
  ⟨(formalizeAWSInstance_spec instW).2.1 ⟨"Name", "second"⟩ (by decide),
    (formalizeAWSInstance_spec instW).2.2.2 "3.3.3.3"⟩

/-- C6: getVPC with a non-empty hint returns a vpc carrying that id or the
not-found error naming the hint; with an empty hint it never fails when at
least one vpc is listed, and it returns the default-flagged vpc when
exactly one vpc is flagged default. -/
theorem getVPC_spec (vpcs : List Vpc) (hint : String) (d : Vpc) :
    (hint ≠ "" →
      (∃ v, getVPC none vpcs hint = .ok v ∧ v.vpcId = hint) ∨
        getVPC none vpcs hint = .error (.noVpcsWithName hint)) ∧
    (hint = "" → vpcs ≠ [] → ∃ v, getVPC none vpcs hint = .ok v) ∧
    (hint = "" → vpcs.filter (fun v => v.isDefault) = [d] →
      getVPC none vpcs hint = .ok d) := by
  refine ⟨?_, ?_, ?_⟩
  · intro hne
    cases hres : vpcs.filter (fun v => v.vpcId == hint) with
    | nil =>
      right
      simp [getVPC, hne, hres]
    | cons v0 rest =>
      left
      refine ⟨v0, ?_, ?_⟩
      · simp [getVPC, hne, hres]
      · have hm : v0 ∈ vpcs.filter (fun v => v.vpcId == hint) := by
          rw [hres]; exact List.mem_cons_self _ _
        exact eq_of_beq (List.mem_filter.mp hm).2
  · rintro rfl hne
    cases vpcs with
    | nil => exact absurd rfl hne
    | cons v0 rest =>
      cases hld : lastDefaultVpc (v0 :: rest) with
      | none => exact ⟨v0, by simp [getVPC, hld]⟩
      | some v => exact ⟨v, by simp [getVPC, hld]⟩
  · rintro rfl hfilt
    have hld : lastDefaultVpc vpcs = some d := by
      unfold lastDefaultVpc
      rw [foldl_if_getLast (fun v => v.isDefault) (fun v => some v)
        vpcs none, hfilt]
      rfl
    have hmem : d ∈ vpcs :=
      List.mem_of_mem_filter (hfilt ▸ List.mem_cons_self d [])
    cases vpcs with
    | nil => simp at hmem
    | cons v0 rest => simp [getVPC, hld]

/-- C6 witness: with an empty hint and exactly one default-flagged vpc,
getVPC returns that vpc. -/
theorem getVPC_spec_witness :
    getVPC none vpcsC6 "" = .ok ⟨"vpc-b", true⟩ :=
  (getVPC_spec vpcsC6 "" ⟨"vpc-b", true⟩).2.2 rfl (by decide)

/-- C5 counterexample: with an empty subnet hint two candidates remain
after filtering and the second is flagged default-for-az, yet getSubnet
returns the first candidate, which is not flagged; so the claimed
hint-independent preference for the default-for-az subnet fails. -/
theorem getSubnet_emptyHint_counterexample :
    (subnetsC5.filter (fun s => s.vpcId == "vpc-1" &&
      (("" : String) == "" || s.subnetId == ""))).length = 2 ∧
    subnetsC5.get? 1 = some ⟨"subnet-b", "vpc-1", true⟩ ∧
    (⟨"subnet-b", "vpc-1", true⟩ : AwsSubnet).defaultForAz = true ∧
    getSubnet none subnetsC5 "" "vpc-1" =
      .ok ⟨"subnet-a", "vpc-1", false⟩ ∧
    (⟨"subnet-a", "vpc-1", false⟩ : AwsSubnet).defaultForAz = false :=
  ⟨rfl, rfl, rfl, rfl, rfl⟩

/-- C5 amended: the preference for a default-for-az subnet applies only
when the subnet hint is non-empty (and then the first flagged candidate
wins, else the first candidate); with an empty hint the first candidate in
provider order is returned unconditionally. -/
theorem getSubnet_spec (allSubnets : List AwsSubnet) (hint vpcID : String)
    (s0 : AwsSubnet) (rest : List AwsSubnet) :
    (hint ≠ "" →
      allSubnets.filter (fun s => s.vpcId == vpcID &&
        (hint == "" || s.subnetId == hint)) = s0 :: rest →
      getSubnet none allSubnets hint vpcID =
        .ok (((s0 :: rest).find? (fun s => s.defaultForAz)).getD s0)) ∧
    (hint = "" →
      allSubnets.filter (fun s => s.vpcId == vpcID &&
        (hint == "" || s.subnetId == hint)) = s0 :: rest →
      getSubnet none allSubnets hint vpcID = .ok s0) := by
  constructor
  · intro hne hres
    simp only [getSubnet, hres]
    rw [if_pos hne]
    cases hfind : (s0 :: rest).find? (fun s => s.defaultForAz) with
    | none => simp [hfind]
    | some s => simp [hfind]
  · rintro rfl hres
    simp only [getSubnet, hres]
    simp

/-- C5 witness: with a non-empty hint matching subnet-b, the flagged
candidate is preferred. -/
theorem getSubnet_spec_witness :
    getSubnet none subnetsC5 "subnet-b" "vpc-1" =
      .ok ⟨"subnet-b", "vpc-1", true⟩ :=
  (getSubnet_spec subnetsC5 "subnet-b" "vpc-1" ⟨"subnet-b", "vpc-1", true⟩
    []).1 (by decide) (by decide)

/-- C4: with both an explicit security-group id and an explicit network id
declared, the resolution fails with the vpc-mismatch (Conflict) error when
the fetched group's parent vpc differs from the declared one, fails with
the not-found error when the lookup returns zero groups, and on success
returns the declared group id with an empty effect trace, so no policy is
created. -/
theorem checkValidSecurityGroup_spec (cfg : Config) (inp : InstanceInputs)
    (g : SecurityGroup) (vpcID : String)
    (hsg : cfg.run.securityGroup ≠ "") (hvpc : cfg.run.vpc ≠ "") :
    (inp.sgDescribe = .ok [g] → g.vpcId ≠ cfg.run.vpc →
      resolveSG cfg inp vpcID =
        (.error (.vpcMismatch cfg.run.securityGroup cfg.run.vpc g.vpcId),
          [])) ∧
    (inp.sgDescribe = .ok [] →
      resolveSG cfg inp vpcID =
        (.error (.sgNotFound cfg.run.securityGroup), [])) ∧
    (inp.sgDescribe = .ok [g] → g.vpcId = cfg.run.vpc →
      resolveSG cfg inp vpcID = (.ok cfg.run.securityGroup, [])) := by
  refine ⟨?_, ?_, ?_⟩
  · intro hresp hmis
    simp [resolveSG, hsg, hvpc, checkValidSecurityGroup, hresp, hmis]
  · intro hresp
    simp [resolveSG, hsg, hvpc, checkValidSecurityGroup, hresp]
  · intro hresp heq
    simp [resolveSG, hsg, hvpc, checkValidSecurityGroup, hresp, heq]

/-- C4 witness: a fetched group with parent vpc-2 against declared vpc-1
fails with the vpc-mismatch error and an empty effect trace. -/
theorem checkValidSecurityGroup_spec_witness :
    resolveSG cfgC4 inpC4 "vpc-1" =
      (.error (.vpcMismatch "sg-9" "vpc-1" "vpc-2"), []) :=
  (checkValidSecurityGroup_spec cfgC4 inpC4 ⟨"sg-9", "vpc-2"⟩ "vpc-1"
    (by decide) (by decide)).1 rfl (by decide)

/-- C7: with both declared port sets empty and a successful creation call,
createSG succeeds returning the new group id, and its effect trace is the
single creation call: no ingress-authorization call is issued. -/
theorem createSG_emptyPorts_no_ingress (createResp : Except SGCreateErr String)
    (authorizeResp : Except String Unit) (imgName vpcID : String)
    (nowNanos : Int) (gid : String) (h : createResp = .ok gid) :
    createSG createResp authorizeResp [] [] imgName vpcID nowNanos =
      (.ok gid,
        [.createSecurityGroup (imgName ++ toString nowNanos) vpcID]) ∧
    ∀ p, Effect.authorizeIngress p ∉
      (createSG createResp authorizeResp [] [] imgName vpcID nowNanos).2 := by
  subst h
  constructor
  · simp [createSG]
  · intro p hp
    simp [createSG] at hp

/-- C7 witness: concrete empty-port creation issues only the creation call
and returns the new group id. -/
theorem createSG_emptyPorts_no_ingress_witness :
    createSG (.ok "sg-1") (.ok ()) [] [] "img" "vpc-1" 9 =
      (.ok "sg-1", [.createSecurityGroup "img9" "vpc-1"]) :=
  (createSG_emptyPorts_no_ingress (.ok "sg-1") (.ok ()) "img" "vpc-1" 9
    "sg-1" rfl).1

theorem parseToAWSTags_eq (l : List Tag) (dn : String) :
    parseToAWSTags l dn =
      if l.any (fun t => t.key == "Name") = true then
        (l, (lastNameValue l).getD dn)
      else (l ++ [⟨"Name", dn⟩], dn) := by
  cases hany : l.any (fun t => t.key == "Name") with
  | true =>
    simp only [parseToAWSTags, parseTagsLoop_spec, List.nil_append,
      Bool.false_or, hany]
    simp [lastNameValue]
  | false =>
    have hf : l.filter (fun t => t.key == "Name") = [] := by
      rw [List.filter_eq_nil_iff]
      intro a ha
      have := List.any_eq_false.mp hany a ha
      simpa using this
    simp only [parseToAWSTags, parseTagsLoop_spec, List.nil_append,
      Bool.false_or, hany, hf]
    simp

/-- C8: when no config tag declares key Name, parseToAWSTags appends a
Name tag holding the default name (in createInstance: the image name plus
the time-derived suffix) and returns that name; when a Name tag is
declared its (last) value becomes the returned name and no tag is
appended; and every polling lookup issued by createInstance searches
exactly by that returned name. -/
theorem parseToAWSTags_name_spec (cfg : Config) (inp : InstanceInputs) :
    ((∀ t ∈ cfg.run.tags, ¬ t.key = "Name") →
      parseToAWSTags cfg.run.tags
          (cfg.cloud.imageName ++ "-" ++ toString inp.nowUnix) =
        (cfg.run.tags ++
            [⟨"Name", cfg.cloud.imageName ++ "-" ++ toString inp.nowUnix⟩],
          cfg.cloud.imageName ++ "-" ++ toString inp.nowUnix)) ∧
    (∀ v, lastNameValue cfg.run.tags = some v →
      parseToAWSTags cfg.run.tags
          (cfg.cloud.imageName ++ "-" ++ toString inp.nowUnix) =
        (cfg.run.tags, v)) ∧
    (∀ s, Effect.lookupByName s ∈ (createInstance cfg inp).2 →
      s = (parseToAWSTags cfg.run.tags
        (cfg.cloud.imageName ++ "-" ++ toString inp.nowUnix)).2) := by
  refine ⟨?_, ?_, ?_⟩
  · intro hnone
    have hany : cfg.run.tags.any (fun t => t.key == "Name") = false := by
      rw [List.any_eq_false]
      intro t ht
      simpa using hnone t ht
    rw [parseToAWSTags_eq]
    simp [hany]
  · intro v hv
    have hne : (cfg.run.tags.filter (fun t => t.key == "Name")) ≠ [] := by
      intro hnil
      rw [lastNameValue, hnil] at hv
      simp at hv
    have hany : cfg.run.tags.any (fun t => t.key == "Name") = true := by
      rcases List.exists_mem_of_ne_nil _ hne with ⟨t, ht⟩
      exact List.any_eq_true.mpr
        ⟨t, List.mem_of_mem_filter ht, (List.mem_filter.mp ht).2⟩
    rw [parseToAWSTags_eq]
    simp [hany, hv]
  · intro s hs
    rcases createInstance_trace_shape cfg inp _ hs with
      ⟨_, _, h⟩ | ⟨_, h⟩ | ⟨_, _, _, _, _, _, _, _, h⟩ | h | ⟨_, h⟩
    · simp at h
    · simp at h
    · simp at h
    · exact Effect.lookupByName.inj h
    · simp at h

/-- C8 witness: with no declared tags, the synthesized Name tag carries the
image name plus the time-derived suffix, which is also the returned
name. -/
theorem parseToAWSTags_name_spec_witness :
    parseToAWSTags cfgC9.run.tags
        (cfgC9.cloud.imageName ++ "-" ++ toString inpC9.nowUnix) =
      (cfgC9.run.tags ++
          [⟨"Name", cfgC9.cloud.imageName ++ "-" ++ toString inpC9.nowUnix⟩],
        cfgC9.cloud.imageName ++ "-" ++ toString inpC9.nowUnix) :=
  (parseToAWSTags_name_spec cfgC9 inpC9).1
    (fun t ht => absurd ht (List.not_mem_nil t))

/-- C9: when more than one image's first tag value equals the requested
name, createInstance selects the image appearing last in provider order:
selectAmi returns its id and every launch effect in the trace carries that
id; the parsed creation dates (tracked but unused) never influence the
choice, as the conclusion holds for every parse function satisfying the
premise. -/
theorem createInstance_launches_last_matching_image
    (cfg : Config) (inp : InstanceInputs) (images : List AwsImage)
    (m : AwsImage)
    (him : inp.imagesResp = .ok images)
    (hname : cfg.cloud.imageName ≠ "")
    (hmulti : 2 ≤ (images.filter
      (fun i => firstTagValue i == cfg.cloud.imageName)).length)
    (hlast : (images.filter
      (fun i => firstTagValue i == cfg.cloud.imageName)).getLast? = some m)
    (hid : m.imageId ≠ "")
    (hparse : ∀ img ∈ images.filter
        (fun i => firstTagValue i == cfg.cloud.imageName),
      (inp.parseDate img.creationDate).isSome) :
    selectAmi inp.parseDate images cfg.cloud.imageName = .ok m.imageId ∧
    ∀ a f s g t, Effect.runInstances a f s g t ∈ (createInstance cfg inp).2 →
      a = m.imageId := by
  have hsel : selectAmi inp.parseDate images cfg.cloud.imageName =
      .ok m.imageId := by
    unfold selectAmi
    rw [selectAmiLoop_last inp.parseDate cfg.cloud.imageName hname images
      "" 0 hparse, hlast]
    simp [hid]
  refine ⟨hsel, ?_⟩
  intro a f s g t hmem
  rcases createInstance_trace_shape cfg inp _ hmem with
    ⟨_, _, h⟩ | ⟨_, h⟩ | ⟨f2, s2, g2, t2, images2, ami2, him2, hsel2, h⟩ |
    h | ⟨_, h⟩
  · simp at h
  · simp at h
  · rw [him] at him2
    have himg : images2 = images := (Except.ok.inj him2).symm
    subst himg
    rw [hsel] at hsel2
    have hami : ami2 = m.imageId := (Except.ok.inj hsel2).symm
    have hinj := Effect.runInstances.inj h
    exact hinj.1.trans hami
  · simp at h
  · simp at h

/-- C9 witness: both images of imagesC9 match img and selectAmi picks the
later ami-new. -/
theorem createInstance_launches_last_matching_image_witness :
    selectAmi inpC9.parseDate imagesC9 cfgC9.cloud.imageName =
      .ok "ami-new" :=
  (createInstance_launches_last_matching_image cfgC9 inpC9 imagesC9
    ⟨"ami-new", [⟨"k", "img"⟩], "d2"⟩ rfl (by decide) (by decide)
    (by decide) (by decide) (fun img _ => rfl)).1

/-- C2 counterexample: the domain name is declared and every polling
lookup succeeds, returning an instance whose public-address list is empty
(the instance never exposes a public address), yet createInstance returns
success immediately instead of a timeout error. -/
theorem createInstance_emptyIps_counterexample :
    cfgC2.run.domainName = "example.com" ∧
    inpC2.polls = (fun _ => [noIpInst]) ∧
    (formalizeAWSInstance noIpInst).publicIps = [] ∧
    (createInstance cfgC2 inpC2).1 = .ok () :=
  ⟨rfl, rfl, rfl, rfl⟩

/-- C2 amended: with a domain name declared and every one of the 60
polling lookups failing, createInstance returns the timeout error; when a
lookup succeeds with an empty public-address list it instead returns
success immediately without binding DNS; and in every run createInstance
never issues a terminate call. -/
theorem createInstance_allPollsFail_timeout
    (cfg : Config) (inp : InstanceInputs) (images : List AwsImage)
    (ami : String) (vpc : Vpc) (sg : String) (tr : List Effect)
    (sub : AwsSubnet) (instId : String)
    (him : inp.imagesResp = .ok images)
    (hsel : selectAmi inp.parseDate images cfg.cloud.imageName = .ok ami)
    (hvpc : getVPC inp.describeVpcsErr inp.vpcs cfg.run.vpc = .ok vpc)
    (hsg : resolveSG cfg inp vpc.vpcId = (.ok sg, tr))
    (hsub : getSubnet inp.describeSubnetsErr inp.subnets cfg.run.subnet
      vpc.vpcId = .ok sub)
    (hrun : inp.runInstancesResp = .ok instId)
    (hdom : cfg.run.domainName ≠ "")
    (hfail : ∀ i, ∃ e2, getInstanceByID (inp.polls i)
      (parseToAWSTags cfg.run.tags
        (cfg.cloud.imageName ++ "-" ++ toString inp.nowUnix)).2 =
          .error e2) :
    (createInstance cfg inp).1 = .error (.timeout 0) ∧
    ∀ id, Effect.terminateInstance id ∉ (createInstance cfg inp).2 := by
  constructor
  · unfold createInstance
    simp only [him, hsel, hvpc, hsg, hsub, hrun]
    rcases hpt : parseToAWSTags cfg.run.tags
      (cfg.cloud.imageName ++ "-" ++ toString inp.nowUnix) with ⟨tags0, nm⟩
    simp only [hpt]
    rw [if_pos hdom]
    rcases hpl : pollLoop inp.polls inp.dnsResp nm 60 0 with ⟨r, ptr⟩
    simp only [hpl]
    have ht := pollLoop_timeout inp.polls inp.dnsResp nm
      (fun i => by have hf := hfail i; rw [hpt] at hf; exact hf) 60 0
    rw [hpl] at ht
    exact ht
  · intro id hmem
    rcases createInstance_trace_shape cfg inp _ hmem with
      ⟨_, _, h⟩ | ⟨_, h⟩ | ⟨_, _, _, _, _, _, _, _, h⟩ | h | ⟨_, h⟩ <;>
      simp at h

/-- C2 witness: on the concrete run cfgC2/inpC2t every lookup fails and
createInstance times out. -/
theorem createInstance_allPollsFail_timeout_witness :
    (createInstance cfgC2 inpC2t).1 = .error (.timeout 0) ∧
    Effect.terminateInstance "i-1" ∉ (createInstance cfgC2 inpC2t).2 := by
  have h := createInstance_allPollsFail_timeout cfgC2 inpC2t
    [⟨"ami-1", [⟨"k", "img"⟩], "2020"⟩] "ami-1" ⟨"vpc-1", true⟩ "sg-1"
    [.createSecurityGroup "img9" "vpc-1"] ⟨"subnet-a", "vpc-1", false⟩ "i-1"
    rfl rfl rfl rfl rfl rfl (by decide)
    (fun i => ⟨.instanceNotFound "web", rfl⟩)
  exact ⟨h.1, h.2 "i-1"⟩

/-- C1 (code bug): on an import whose task never reaches a terminal status
within the 60 waiter attempts the waiter times out, but
waitSnapshotToBeReady discards that outcome, so createImage deletes the
staging blob and returns success instead of failing with a timeout. -/
theorem createImage_timeout_swallowed :
    runWaiter inpC1.pollStatus 60 0 = .timedOut ∧
    (createImage inpC1 "img").1 = .ok () ∧
    Effect.deleteBlob "img" ∈ (createImage inpC1 "img").2 :=
  ⟨rfl, rfl, by decide⟩

/-- C3 (code bug): the error of the final image-tagging step is assigned
and then dropped: with the final tag call failing and every earlier step
succeeding, createImage still returns success instead of surfacing the
error. -/
theorem createImage_tagImage_error_swallowed :
    inpC3.tagImageResp = .error "tag failure" ∧
    (createImage inpC3 "img").1 = .ok () :=
  ⟨rfl, rfl⟩

end Ops
